import Mathlib

/-!
Verification of the demand-projection and generation-mix engine of the
simulador-energia repository (src/pythonProject/app.py), shallowly embedded
over exact rational arithmetic.  The embedded functions mirror the source:
`BASE_DEMANDA`, `CAPACITIES`, `EMISSION_FACTORS`, `COSTS` are the static
tables at the top of app.py; `project_demand` and `simulate_mix` follow the
Python functions of the same names line by line.
-/

/-- The closed set of regions, the keys of the BASE_DEMANDA and CAPACITIES
tables in app.py. -/
inductive Region : Type
  | Costa
  | Sierra
  | Selva
deriving DecidableEq, Repr

/-- The closed set of technologies, the keys of the per-region capacity table
and of EMISSION_FACTORS and COSTS in app.py. -/
inductive Tech : Type
  | hydro
  | solar
  | thermal
deriving DecidableEq, Repr

/-- BASE_DEMANDA table of app.py: year-0 demand in MWh per region. -/
def BASE_DEMANDA : Region → ℚ
  | Region.Costa => 12000
  | Region.Sierra => 7000
  | Region.Selva => 4000

/-- CAPACITIES table of app.py: maximum generation in MWh per region and
technology. -/
def CAPACITIES : Region → Tech → ℚ
  | Region.Costa, Tech.hydro => 15000
  | Region.Costa, Tech.solar => 8000
  | Region.Costa, Tech.thermal => 12000
  | Region.Sierra, Tech.hydro => 20000
  | Region.Sierra, Tech.solar => 3000
  | Region.Sierra, Tech.thermal => 8000
  | Region.Selva, Tech.hydro => 10000
  | Region.Selva, Tech.solar => 1000
  | Region.Selva, Tech.thermal => 5000

/-- EMISSION_FACTORS table of app.py (hydro 0.02, solar 0.03, thermal 0.8),
in tCO2e per MWh. -/
def EMISSION_FACTORS : Tech → ℚ
  | Tech.hydro => 2 / 100
  | Tech.solar => 3 / 100
  | Tech.thermal => 8 / 10

/-- COSTS table of app.py: unit cost in USD per MWh. -/
def COSTS : Tech → ℚ
  | Tech.hydro => 30
  | Tech.solar => 40
  | Tech.thermal => 90

/-- The initial share dictionary built inside simulate_mix in app.py:
mix = \x7b"hydro": 0.5, "solar": 0.2, "thermal": 0.3\x7d. -/
def mixShare : Tech → ℚ
  | Tech.hydro => 1 / 2
  | Tech.solar => 2 / 10
  | Tech.thermal => 3 / 10

/-- One projected row of app.py project_demand: the calendar year label and
the projected demand in MWh (the Año and Demanda_MWh columns). -/
abbrev ProjRow := ℕ × ℚ

/-- project_demand of app.py.  The date range starts at 2025, so row i is
labelled with year 2025 + i, and demand follows
base * (1 + growth_rate) ^ i for i in range(years). -/
def project_demand (region : Region) (years : ℕ) (growth_rate : ℚ) :
    List ProjRow :=
  (List.range years).map
    (fun i => (2025 + i, BASE_DEMANDA region * (1 + growth_rate) ^ i))

/-- The record returned by simulate_mix in app.py: generation per technology,
deficit, emissions, total cost and average marginal cost (cmp). -/
structure SimResult : Type where
  gen : Tech → ℚ
  deficit : ℚ
  emissions : ℚ
  cost : ℚ
  cmp : ℚ

/-- simulate_mix of app.py, line by line: raw shares demanda * mix[k], the
climate-factor clamp min(gen[k] * factor, caps[k]) for hydro and solar, the
thermal residual min(demanda - (gen[hydro] + gen[solar]), caps[thermal]),
deficit, emissions, cost, and the guarded marginal cost. -/
def simulate_mix (region : Region) (demanda : ℚ) (factor : ℚ) : SimResult :=
  let caps := CAPACITIES region
  let genH := min (demanda * mixShare Tech.hydro * factor) (caps Tech.hydro)
  let genS := min (demanda * mixShare Tech.solar * factor) (caps Tech.solar)
  let genT := min (demanda - (genH + genS)) (caps Tech.thermal)
  let deficit := max 0 (demanda - (genH + genS + genT))
  let emissions := genH * EMISSION_FACTORS Tech.hydro +
    genS * EMISSION_FACTORS Tech.solar + genT * EMISSION_FACTORS Tech.thermal
  let cost := genH * COSTS Tech.hydro + genS * COSTS Tech.solar +
    genT * COSTS Tech.thermal
  let cmp := if demanda > 0 then cost / demanda else 0
  { gen := fun k =>
      match k with
      | Tech.hydro => genH
      | Tech.solar => genS
      | Tech.thermal => genT
    deficit := deficit
    emissions := emissions
    cost := cost
    cmp := cmp }

/-- Every capacity in the CAPACITIES table is nonnegative. -/
lemma CAPACITIES_nonneg (r : Region) (k : Tech) : 0 ≤ CAPACITIES r k := by
  cases r <;> cases k <;> norm_num [CAPACITIES]

/-- Every base demand in the BASE_DEMANDA table is positive. -/
lemma BASE_DEMANDA_pos (r : Region) : 0 < BASE_DEMANDA r := by
  cases r <;> norm_num [BASE_DEMANDA]

/-- Claim C9: for region Costa with demand 12000 and climate factor 1.0,
simulate_mix returns gen hydro 6000, solar 2400, thermal 3600, deficit 0,
emissions 3072, cost 600000 and marginal cost 50. -/
theorem simulate_mix_costa_normal :
    (simulate_mix Region.Costa 12000 1).gen Tech.hydro = 6000 ∧
    (simulate_mix Region.Costa 12000 1).gen Tech.solar = 2400 ∧
    (simulate_mix Region.Costa 12000 1).gen Tech.thermal = 3600 ∧
    (simulate_mix Region.Costa 12000 1).deficit = 0 ∧
    (simulate_mix Region.Costa 12000 1).emissions = 3072 ∧
    (simulate_mix Region.Costa 12000 1).cost = 600000 ∧
    (simulate_mix Region.Costa 12000 1).cmp = 50 := by
  norm_num [simulate_mix, CAPACITIES, mixShare, EMISSION_FACTORS, COSTS]

/-- Claim C3: there are valid inputs (demand nonnegative, climate factor
positive) on which simulate_mix returns strictly negative thermal
generation, because the thermal residual has no lower clamp at zero. -/
theorem simulate_mix_thermal_can_be_negative :
    ∃ (region : Region) (d fc : ℚ), 0 ≤ d ∧ 0 < fc ∧
      (simulate_mix region d fc).gen Tech.thermal < 0 := by
  refine ⟨Region.Costa, 1000, 2, by norm_num, by norm_num, ?_⟩
  norm_num [simulate_mix, CAPACITIES, mixShare]

/-- For every index below the horizon, the demand column of project_demand
holds base demand times (1 + growth_rate) to the index. -/
lemma project_demand_getElem (region : Region) (years : ℕ) (g : ℚ)
    (i : ℕ) (hi : i < years) :
    (project_demand region years g)[i]? =
      some (2025 + i, BASE_DEMANDA region * (1 + g) ^ i) := by
  rw [project_demand, List.getElem?_map, List.getElem?_range hi]
  rfl

/-- Claim C1: for every region, positive horizon and growth rate at least -1,
project_demand returns exactly horizon_years rows, the i-th demand value is
base_demand(region) * (1 + growth_rate) ^ i, and horizon 1 yields the single
row (2025, base_demand(region)). -/
theorem project_demand_spec (region : Region) (years : ℕ) (g : ℚ)
    (hy : 0 < years) (hg : -1 ≤ g) :
    (project_demand region years g).length = years ∧
    (∀ i, i < years →
      ((project_demand region years g).map Prod.snd)[i]? =
        some (BASE_DEMANDA region * (1 + g) ^ i)) ∧
    (years = 1 → project_demand region years g = [(2025, BASE_DEMANDA region)]) := by
  refine ⟨by simp [project_demand], fun i hi => ?_, fun h1 => ?_⟩
  · rw [List.getElem?_map, project_demand_getElem region years g i hi]
    rfl
  · subst h1
    simp [project_demand, List.range_succ]

/-- Witness for C1 at region Costa, horizon 3, growth rate 1/10. -/
theorem project_demand_spec_witness :
    (project_demand Region.Costa 3 (1 / 10)).length = 3 ∧
    ((project_demand Region.Costa 3 (1 / 10)).map Prod.snd)[2]? =
      some (BASE_DEMANDA Region.Costa * (1 + 1 / 10) ^ 2) := by
  have h := project_demand_spec Region.Costa 3 (1 / 10) (by norm_num) (by norm_num)
  exact ⟨h.1, h.2.1 2 (by norm_num)⟩

/-- Claim C2: for every region, nonnegative demand and positive climate
factor, hydro and solar generation equal
min(demand * base_share * climate_factor, capacity), are nonnegative, and
never exceed the regional capacity. -/
theorem simulate_mix_renewable_clamp (region : Region) (d fc : ℚ)
    (hd : 0 ≤ d) (hf : 0 < fc) :
    (simulate_mix region d fc).gen Tech.hydro =
      min (d * mixShare Tech.hydro * fc) (CAPACITIES region Tech.hydro) ∧
    (simulate_mix region d fc).gen Tech.solar =
      min (d * mixShare Tech.solar * fc) (CAPACITIES region Tech.solar) ∧
    0 ≤ (simulate_mix region d fc).gen Tech.hydro ∧
    (simulate_mix region d fc).gen Tech.hydro ≤ CAPACITIES region Tech.hydro ∧
    0 ≤ (simulate_mix region d fc).gen Tech.solar ∧
    (simulate_mix region d fc).gen Tech.solar ≤ CAPACITIES region Tech.solar := by
  have hshH : 0 ≤ mixShare Tech.hydro := by norm_num [mixShare]
  have hshS : 0 ≤ mixShare Tech.solar := by norm_num [mixShare]
  refine ⟨rfl, rfl, ?_, min_le_right _ _, ?_, min_le_right _ _⟩
  · exact le_min (mul_nonneg (mul_nonneg hd hshH) hf.le)
      (CAPACITIES_nonneg region Tech.hydro)
  · exact le_min (mul_nonneg (mul_nonneg hd hshS) hf.le)
      (CAPACITIES_nonneg region Tech.solar)

/-- Witness for C2 at region Sierra, demand 5000, climate factor 8/10. -/
theorem simulate_mix_renewable_clamp_witness :
    0 ≤ (simulate_mix Region.Sierra 5000 (8 / 10)).gen Tech.hydro ∧
    (simulate_mix Region.Sierra 5000 (8 / 10)).gen Tech.solar ≤
      CAPACITIES Region.Sierra Tech.solar := by
  have h := simulate_mix_renewable_clamp Region.Sierra 5000 (8 / 10)
    (by norm_num) (by norm_num)
  exact ⟨h.2.2.1, h.2.2.2.2.2⟩

/-- Claim C4: for every region, nonnegative demand and positive climate
factor, the deficit equals max(0, demand - total clamped generation) and is
therefore nonnegative. -/
theorem simulate_mix_deficit_spec (region : Region) (d fc : ℚ)
    (hd : 0 ≤ d) (hf : 0 < fc) :
    (simulate_mix region d fc).deficit =
      max 0 (d - ((simulate_mix region d fc).gen Tech.hydro +
        (simulate_mix region d fc).gen Tech.solar +
        (simulate_mix region d fc).gen Tech.thermal)) ∧
    0 ≤ (simulate_mix region d fc).deficit := by
  exact ⟨rfl, le_max_left 0 _⟩

/-- Witness for C4 at region Selva, demand 4000, climate factor 8/10. -/
theorem simulate_mix_deficit_spec_witness :
    0 ≤ (simulate_mix Region.Selva 4000 (8 / 10)).deficit :=
  (simulate_mix_deficit_spec Region.Selva 4000 (8 / 10)
    (by norm_num) (by norm_num)).2

/-- Claim C5: for every region and positive climate factor, the marginal
cost equals cost / demand when demand is positive and 0 when demand is 0
(the division is guarded), and at demand 0 every generation quantity is 0. -/
theorem simulate_mix_marginal_cost_guard (region : Region) (d fc : ℚ)
    (hf : 0 < fc) :
    (0 < d → (simulate_mix region d fc).cmp =
      (simulate_mix region d fc).cost / d) ∧
    (d = 0 → (simulate_mix region d fc).cmp = 0 ∧
      (simulate_mix region d fc).gen Tech.hydro = 0 ∧
      (simulate_mix region d fc).gen Tech.solar = 0 ∧
      (simulate_mix region d fc).gen Tech.thermal = 0) := by
  constructor
  · intro hd
    simp only [simulate_mix]
    rw [if_pos hd]
  · intro hd
    subst hd
    have hH : min ((0 : ℚ) * mixShare Tech.hydro * fc)
        (CAPACITIES region Tech.hydro) = 0 := by
      rw [zero_mul, zero_mul, min_eq_left (CAPACITIES_nonneg region Tech.hydro)]
    have hS : min ((0 : ℚ) * mixShare Tech.solar * fc)
        (CAPACITIES region Tech.solar) = 0 := by
      rw [zero_mul, zero_mul, min_eq_left (CAPACITIES_nonneg region Tech.solar)]
    simp only [simulate_mix, hH, hS]
    norm_num [min_eq_left (CAPACITIES_nonneg region Tech.thermal)]

/-- Witness for C5 at region Costa, demand 0, climate factor 11/10. -/
theorem simulate_mix_marginal_cost_guard_witness :
    (simulate_mix Region.Costa 0 (11 / 10)).cmp = 0 ∧
    (simulate_mix Region.Costa 0 (11 / 10)).gen Tech.thermal = 0 := by
  have h := (simulate_mix_marginal_cost_guard Region.Costa 0 (11 / 10)
    (by norm_num)).2 rfl
  exact ⟨h.1, h.2.2.2⟩

/-- The demand column of project_demand read with getD, for indices below
the horizon. -/
lemma project_demand_snd_getD (region : Region) (years : ℕ) (g : ℚ)
    (i : ℕ) (hi : i < years) :
    ((project_demand region years g).map Prod.snd).getD i 0 =
      BASE_DEMANDA region * (1 + g) ^ i := by
  rw [List.getD_eq_getElem?_getD, List.getElem?_map,
    project_demand_getElem region years g i hi]
  rfl

/-- Claim C8: for every region, horizon at least 2 and growth rate at least
-1 other than exactly -1, consecutive demand values of project_demand have
ratio 1 + growth_rate. -/
theorem project_demand_growth_ratio (region : Region) (years : ℕ) (g : ℚ)
    (hy : 2 ≤ years) (hg : -1 ≤ g) (hg1 : g ≠ -1)
    (i : ℕ) (hi : i + 1 < years) :
    ((project_demand region years g).map Prod.snd).getD (i + 1) 0 /
      ((project_demand region years g).map Prod.snd).getD i 0 = 1 + g := by
  have h1 : i < years := Nat.lt_of_succ_lt hi
  rw [project_demand_snd_getD region years g (i + 1) hi,
    project_demand_snd_getD region years g i h1]
  have hgg : (1 : ℚ) + g ≠ 0 := by
    intro h
    exact hg1 (by linarith)
  have hx : BASE_DEMANDA region * (1 + g) ^ i ≠ 0 :=
    mul_ne_zero (BASE_DEMANDA_pos region).ne' (pow_ne_zero i hgg)
  rw [div_eq_iff hx, pow_succ]
  ring

/-- Witness for C8 at region Selva, horizon 3, growth rate 1/20, index 1. -/
theorem project_demand_growth_ratio_witness :
    ((project_demand Region.Selva 3 (1 / 20)).map Prod.snd).getD 2 0 /
      ((project_demand Region.Selva 3 (1 / 20)).map Prod.snd).getD 1 0 =
      1 + 1 / 20 :=
  project_demand_growth_ratio Region.Selva 3 (1 / 20) (by norm_num)
    (by norm_num) (by norm_num) 1 (by norm_num)

/-- Claim C10: for every region, nonnegative demand and positive climate
factor, whenever thermal generation is strictly below the regional thermal
capacity the three generation values sum exactly to the demand and the
deficit is 0; hence a strictly positive deficit forces thermal generation
to equal the thermal capacity. -/
theorem simulate_mix_thermal_balance (region : Region) (d fc : ℚ)
    (hd : 0 ≤ d) (hf : 0 < fc) :
    ((simulate_mix region d fc).gen Tech.thermal <
        CAPACITIES region Tech.thermal →
      (simulate_mix region d fc).gen Tech.hydro +
        (simulate_mix region d fc).gen Tech.solar +
        (simulate_mix region d fc).gen Tech.thermal = d ∧
      (simulate_mix region d fc).deficit = 0) ∧
    (0 < (simulate_mix region d fc).deficit →
      (simulate_mix region d fc).gen Tech.thermal =
        CAPACITIES region Tech.thermal) := by
  have hT : (simulate_mix region d fc).gen Tech.thermal =
      min (d - ((simulate_mix region d fc).gen Tech.hydro +
        (simulate_mix region d fc).gen Tech.solar))
        (CAPACITIES region Tech.thermal) := rfl
  have hD : (simulate_mix region d fc).deficit =
      max 0 (d - ((simulate_mix region d fc).gen Tech.hydro +
        (simulate_mix region d fc).gen Tech.solar +
        (simulate_mix region d fc).gen Tech.thermal)) := rfl
  have key : (simulate_mix region d fc).gen Tech.thermal <
      CAPACITIES region Tech.thermal →
      (simulate_mix region d fc).gen Tech.hydro +
        (simulate_mix region d fc).gen Tech.solar +
        (simulate_mix region d fc).gen Tech.thermal = d ∧
      (simulate_mix region d fc).deficit = 0 := by
    intro hlt
    rcases min_cases (d - ((simulate_mix region d fc).gen Tech.hydro +
        (simulate_mix region d fc).gen Tech.solar))
        (CAPACITIES region Tech.thermal) with hcase | hcase
    · have hsum : (simulate_mix region d fc).gen Tech.hydro +
          (simulate_mix region d fc).gen Tech.solar +
          (simulate_mix region d fc).gen Tech.thermal = d := by
        rw [hT, hcase.1]
        ring
      refine ⟨hsum, ?_⟩
      rw [hD, hsum, sub_self, max_self]
    · rw [hT, hcase.1] at hlt
      exact absurd hlt (lt_irrefl _)
  refine ⟨key, fun hpos => ?_⟩
  by_contra hne
  have hle : (simulate_mix region d fc).gen Tech.thermal ≤
      CAPACITIES region Tech.thermal := by
    rw [hT]
    exact min_le_right _ _
  have hlt := lt_of_le_of_ne hle hne
  rw [(key hlt).2] at hpos
  exact lt_irrefl 0 hpos

/-- Witness for C10 at region Costa, demand 12000, climate factor 1, where
thermal generation 3600 is strictly below the 12000 thermal capacity. -/
theorem simulate_mix_thermal_balance_witness :
    (simulate_mix Region.Costa 12000 1).gen Tech.hydro +
      (simulate_mix Region.Costa 12000 1).gen Tech.solar +
      (simulate_mix Region.Costa 12000 1).gen Tech.thermal = 12000 ∧
    (simulate_mix Region.Costa 12000 1).deficit = 0 :=
  (simulate_mix_thermal_balance Region.Costa 12000 1 (by norm_num)
    (by norm_num)).1
    (by norm_num [simulate_mix, CAPACITIES, mixShare])

/-- Counterexample to claim C6: simulate_mix performs no boundary
validation.  At the invalid input demand = -1000 (with climate factor 1 and
region Costa) it still produces an ordinary simulation result, here with
hydro generation -500, rather than failing with an InvalidParameter error. -/
theorem simulate_mix_accepts_negative_demand :
    (simulate_mix Region.Costa (-1000) 1).gen Tech.hydro = -500 ∧
    (simulate_mix Region.Costa (-1000) 1).gen Tech.solar = -200 ∧
    ((-1000 : ℚ) < 0) := by
  norm_num [simulate_mix, CAPACITIES, mixShare]

/-- Amended claim C6: simulate_mix is a total function with no input
validation: for every region of the closed enum and all rational demand and
climate factor values, including demand below 0 and climate factor at or
below 0, it returns the simulation result given by the clamp formulas (an
unknown region is unrepresentable in the closed region type; in the source
it would be a raw dictionary KeyError, not an UnknownRegion error). -/
theorem simulate_mix_total_no_validation (region : Region) (d fc : ℚ) :
    (simulate_mix region d fc).gen Tech.hydro =
      min (d * mixShare Tech.hydro * fc) (CAPACITIES region Tech.hydro) ∧
    (simulate_mix region d fc).gen Tech.solar =
      min (d * mixShare Tech.solar * fc) (CAPACITIES region Tech.solar) ∧
    (simulate_mix region d fc).gen Tech.thermal =
      min (d - ((simulate_mix region d fc).gen Tech.hydro +
        (simulate_mix region d fc).gen Tech.solar))
        (CAPACITIES region Tech.thermal) ∧
    (simulate_mix region d fc).deficit =
      max 0 (d - ((simulate_mix region d fc).gen Tech.hydro +
        (simulate_mix region d fc).gen Tech.solar +
        (simulate_mix region d fc).gen Tech.thermal)) := by
  exact ⟨rfl, rfl, rfl, rfl⟩

/-- Counterexample to claim C7: project_demand does not reject a
nonpositive horizon.  At horizon 0 (region Costa, growth rate 4/100) it
returns the empty sequence instead of failing with an InvalidParameter
error. -/
theorem project_demand_accepts_zero_horizon :
    project_demand Region.Costa 0 (4 / 100) = [] := rfl

/-- Amended claim C7: project_demand performs no horizon validation: for
every region and growth rate, horizon 0 silently yields the empty sequence
(range(0) is empty), with no error raised. -/
theorem project_demand_zero_horizon_empty (region : Region) (g : ℚ) :
    project_demand region 0 g = [] := rfl
